import Mathlib

/-!
Verification development for the Python-Image-Formatter repository.

The repository has two Python modules sharing one pipeline:
`src/image_formatter.py` (CLI batch tool) and `src/app.py` (web upload
service).  Both decode an image, apply EXIF orientation, center it on a
square canvas (the CLI skips oversized images, the web variant downscales
them), and save the result.

The shallow embedding below translates those modules into Lean:
pixels are RGBA quadruples of naturals (bytes in the code), images are a
size plus a pixel function together with the fields of PIL's `info`
dictionary that the code reads, and the external PIL library calls that
the code makes (decode, `exif_transpose`, LANCZOS resampling, `save`) are
passed in as explicit oracle parameters, since the codec library is an
external collaborator.  `Image.paste` is embedded with PIL's actual
per-channel blend arithmetic (the MULDIV255 macro of libImaging/Paste.c).
Python exceptions become `Option`/`Except` values; `try`/`except` blocks
become matches on those values.
-/

/-- A pixel as stored by PIL: four 8-bit channels.  Channels are naturals;
well-formed pixels have every channel at most 255.  For an image in mode
RGB the alpha channel is conventionally 255 (PIL materializes exactly that
value when such an image is pasted onto an RGBA canvas). -/
@[ext]
structure RGBA where
  r : Nat
  g : Nat
  b : Nat
  a : Nat
deriving DecidableEq, Repr

/-- The two PIL pixel modes the code constructs or distinguishes. -/
inductive Mode where
  | RGB
  | RGBA
deriving DecidableEq, Repr

/-- A decoded image: dimensions, mode, pixel buffer, and the parts of PIL's
`info` dictionary the code reads (`'transparency' in image.info`,
`info.get('exif')`, `info.get('icc_profile')`). -/
structure Img where
  width : Nat
  height : Nat
  mode : Mode
  px : Nat → Nat → RGBA
  transparency_info : Bool
  exif : Option (List Nat)
  icc_profile : Option (List Nat)

/-- PIL's MULDIV255 rounding macro from libImaging: division of `a * b`
by 255 with rounding, computed as `(t >> 8 + t) >> 8` for `t = a*b+128`. -/
def muldiv255 (x m : Nat) : Nat :=
  let t := x * m + 128
  ((t >>> 8) + t) >>> 8

/-- One channel of PIL's masked paste: `BLEND(mask, dst, src)`. -/
def blendChan (d s m : Nat) : Nat :=
  muldiv255 d (255 - m) + muldiv255 s m

/-- The condition under which both Python variants pass the image itself as
the paste mask: `image.mode == 'RGBA' or 'transparency' in image.info`. -/
def useAlphaMask (image : Img) : Bool :=
  (match image.mode with
   | Mode.RGBA => true
   | Mode.RGB => false) || image.transparency_info

/-- Embedding of `canvas.paste(image, (x, y))` resp. `canvas.paste(image, (x, y), image)`
at integer offsets.  In the masked case each channel is blended with the
source pixel's alpha as mask (on an RGB canvas the destination keeps its
alpha, which is conventionally 255); in the unmasked case the source pixel
is copied, converted to the canvas mode (alpha materialized as 255). -/
def pasteAt (canvas : Img) (image : Img) (x : Int) (y : Int) : Img :=
  { canvas with px := fun cx cy =>
      let ix : Int := (cx : Int) - x
      let iy : Int := (cy : Int) - y
      if 0 ≤ ix ∧ ix < (image.width : Int) ∧ 0 ≤ iy ∧ iy < (image.height : Int) then
        let s := image.px ix.toNat iy.toNat
        let d := canvas.px cx cy
        if useAlphaMask image then
          { r := blendChan d.r s.r s.a
            g := blendChan d.g s.g s.a
            b := blendChan d.b s.b s.a
            a := match canvas.mode with
                 | Mode.RGBA => blendChan d.a s.a s.a
                 | Mode.RGB => d.a }
        else
          { r := s.r, g := s.g, b := s.b, a := 255 }
      else canvas.px cx cy }

/-- Canvas creation shared by both variants:
`Image.new('RGBA', (S, S), (0, 0, 0, 0))` when `bg_color is None`, else
`Image.new('RGB', (S, S), bg_color)`. -/
def mkCanvas (canvas_size : Nat) (bg_color : Option (Nat × Nat × Nat)) : Img :=
  match bg_color with
  | none =>
      { width := canvas_size, height := canvas_size, mode := Mode.RGBA
        px := fun _ _ => ⟨0, 0, 0, 0⟩
        transparency_info := false, exif := none, icc_profile := none }
  | some (r, g, b) =>
      { width := canvas_size, height := canvas_size, mode := Mode.RGB
        px := fun _ _ => ⟨r, g, b, 255⟩
        transparency_info := false, exif := none, icc_profile := none }

/-- The centering offset `(canvas_size - image.width) // 2` of both
variants; Python `//` is floor division, `Int.fdiv` here. -/
def center_offset (canvas_size w : Nat) : Int :=
  Int.fdiv ((canvas_size : Int) - (w : Int)) 2

namespace ImageFormatter

/-- Embedding of `center_image_on_canvas` of src/image_formatter.py (lines 27-49): an
image exceeding the canvas on either axis is skipped (`None`); otherwise a
fresh canvas is created and the image pasted at the centered offset, with
the image itself as mask when it is RGBA or carries transparency info. -/
def center_image_on_canvas (image : Img) (canvas_size : Nat)
    (bg_color : Option (Nat × Nat × Nat)) : Option Img :=
  if canvas_size < image.width ∨ canvas_size < image.height then
    none
  else
    some (pasteAt (mkCanvas canvas_size bg_color) image
      (center_offset canvas_size image.width)
      (center_offset canvas_size image.height))

end ImageFormatter

/-- The pixel sampler of PIL's `Image.resize(..., Image.Resampling.LANCZOS)`:
given the source image and the target dimensions it yields the resampled
pixel buffer.  The resampling filter is part of the external codec library,
so it is an oracle parameter of the embedding; the library's contract that
`resize((nw, nh))` returns an image of exactly that size is kept by
`image_resize` below. -/
def Sampler : Type :=
  Img → Nat → Nat → Nat → Nat → RGBA

/-- Embedding of `image.resize((new_width, new_height), Image.Resampling.LANCZOS)`:
dimensions become the requested ones, the pixel buffer is produced by the
library's resampling filter, and PIL carries `mode` and `info` over to the
resized image. -/
def image_resize (sampler : Sampler) (image : Img) (nw nh : Nat) : Img :=
  { image with width := nw, height := nh, px := sampler image nw nh }

namespace App

/-- The scale factor of src/app.py line 39:
`min(canvas_size / image.width, canvas_size / image.height)`.  Python float
division is embedded as exact rational division. -/
def scale_factor (w h canvas_size : Nat) : ℚ :=
  min ((canvas_size : ℚ) / (w : ℚ)) ((canvas_size : ℚ) / (h : ℚ))

/-- The resized dimensions of src/app.py lines 40-41:
`int(image.width * scale_factor)` and `int(image.height * scale_factor)`.
Python `int` truncates; both products are nonnegative, so truncation is
`Int.floor` followed by `Int.toNat`. -/
def resizeDims (w h canvas_size : Nat) : Nat × Nat :=
  ((⌊(w : ℚ) * scale_factor w h canvas_size⌋).toNat,
   (⌊(h : ℚ) * scale_factor w h canvas_size⌋).toNat)

/-- Lines 37-45 of src/app.py: the image is downscaled when it exceeds the
canvas on either axis, and is used unchanged otherwise. -/
def web_fitted (sampler : Sampler) (image : Img) (canvas_size : Nat) : Img :=
  if canvas_size < image.width ∨ canvas_size < image.height then
    image_resize sampler image
      (resizeDims image.width image.height canvas_size).1
      (resizeDims image.width image.height canvas_size).2
  else image

/-- Embedding of `center_image_on_canvas` of src/app.py (lines 34-63): downscale an
oversized image to fit, then create the canvas and paste at the centered
offset, with the image itself as mask when it is RGBA or carries
transparency info.  This variant always produces a canvas. -/
def center_image_on_canvas (sampler : Sampler) (image : Img)
    (canvas_size : Nat) (bg_color : Option (Nat × Nat × Nat)) : Img :=
  let fitted := web_fitted sampler image canvas_size
  pasteAt (mkCanvas canvas_size bg_color) fitted
    (center_offset canvas_size fitted.width)
    (center_offset canvas_size fitted.height)

end App

/-- Embedding of `apply_exif_orientation` (identical in both modules):
`ImageOps.exif_transpose(image)` inside `try`/`except`.  The library call's
outcome is the oracle argument `transposed`: `some t` when the call
returned the transposed image `t` (for an image without an orientation tag
PIL returns the image unchanged), `none` when it raised.  On an exception
the code logs a warning and returns the image unchanged. -/
def apply_exif_orientation (transposed : Option Img) (image : Img) : Img :=
  match transposed with
  | some t => t
  | none => image

/-- Output codec chosen by `process_image` in src/image_formatter.py:
`{'format': 'WEBP', 'lossless': True}` for a `.webp` destination, else
`{'format': 'PNG'}`. -/
inductive SaveFormat where
  | png
  | webpLossless
deriving DecidableEq, Repr

/-- The keyword arguments handed to PIL's `save`: the format entry plus the
optional `exif` and `icc_profile` entries. -/
structure SaveKwargs where
  fmt : SaveFormat
  exif : Option (List Nat)
  icc_profile : Option (List Nat)
deriving DecidableEq, Repr

/-- Python truthiness of an optional bytes value (`if exif:`): `None` and
empty bytes are falsy. -/
def truthyBlob : Option (List Nat) → Bool
  | none => false
  | some bs => !bs.isEmpty

/-- Result of processing one image: either an output artifact was written
(the composed canvas together with the save arguments), or the image was
skipped and nothing was written. -/
inductive ProcOutcome where
  | emitted (result : Img) (kwargs : SaveKwargs)
  | skipped

/-- The `save` call's success, an oracle for the external encoder: whether
`result.save(output_path, **save_kwargs)` succeeds or raises. -/
def SaveOracle : Type :=
  Img → SaveKwargs → Bool

/-- The lower-cased `.webp` suffix compared against in src/image_formatter.py. -/
def webpExt : List Char :=
  ".webp".toList

/-- The `.png` suffix used for folder-mode outputs in src/image_formatter.py. -/
def pngExt : List Char :=
  ".png".toList

namespace ImageFormatter

/-- Lines 63-77 of src/image_formatter.py: the keyword arguments for the
`save` call.  The format is lossless WEBP for a `.webp` destination and PNG
otherwise; a truthy (`if exif:` / `if icc_profile:`) metadata blob read
from the decoded, orientation-normalized image is attached verbatim. -/
def save_kwargs_for (output_ext : List Char)
    (exifBlob iccBlob : Option (List Nat)) : SaveKwargs :=
  let base : SaveKwargs :=
    if output_ext.map Char.toLower = webpExt then
      ⟨SaveFormat.webpLossless, none, none⟩
    else
      ⟨SaveFormat.png, none, none⟩
  let k1 : SaveKwargs :=
    if truthyBlob exifBlob then { base with exif := exifBlob } else base
  if truthyBlob iccBlob then { k1 with icc_profile := iccBlob } else k1

/-- Embedding of `process_image` of src/image_formatter.py (lines 51-85).  `decoded` is
the outcome of `Image.open` (`none` when decoding raised), `transposed`
the outcome of `ImageOps.exif_transpose`, `saveOk` the encoder oracle,
`output_ext` the destination suffix.  Any exception inside the `try` block
(decode or save failure) is caught and yields `False`, i.e. a skip with no
artifact; a `None` canvas from centering also yields `False`. -/
def process_image (decoded : Option Img) (transposed : Option Img)
    (saveOk : SaveOracle) (output_ext : List Char)
    (canvas_size : Nat) (bg_color : Option (Nat × Nat × Nat)) : ProcOutcome :=
  match decoded with
  | none => ProcOutcome.skipped
  | some img0 =>
    let img := apply_exif_orientation transposed img0
    match center_image_on_canvas img canvas_size bg_color with
    | none => ProcOutcome.skipped
    | some result =>
      let save_kwargs := save_kwargs_for output_ext img.exif img.icc_profile
      if saveOk result save_kwargs then ProcOutcome.emitted result save_kwargs
      else ProcOutcome.skipped

end ImageFormatter

namespace App

/-- Embedding of `process_single_image` of src/app.py (lines 65-84), with the module's
default arguments `canvas_size=1200, bg_color=None` passed explicitly.
The result is saved as a bare PNG with no further keyword arguments; the
`if result is None` guard of the code can never fire because this
variant's centering always returns a canvas. -/
def process_single_image (decoded : Option Img) (transposed : Option Img)
    (saveOk : SaveOracle) (sampler : Sampler)
    (canvas_size : Nat) (bg_color : Option (Nat × Nat × Nat)) : ProcOutcome :=
  match decoded with
  | none => ProcOutcome.skipped
  | some img0 =>
    let img := apply_exif_orientation transposed img0
    let result := center_image_on_canvas sampler img canvas_size bg_color
    let kwargs : SaveKwargs := ⟨SaveFormat.png, none, none⟩
    if saveOk result kwargs then ProcOutcome.emitted result kwargs else ProcOutcome.skipped

end App

/-- The set `SUPPORTED_FORMATS`, identical in both modules. -/
def SUPPORTED_FORMATS : List (List Char) :=
  [".jpg".toList, ".jpeg".toList, ".png".toList, ".tiff".toList,
   ".tif".toList, ".bmp".toList, ".webp".toList]

/-- One uploaded or on-disk file as the batch loops see it: its filename,
its suffix (`Path(filename).suffix`), and the oracle outcomes of the
library calls made while processing it (decode, EXIF transpose, save). -/
structure FileEntry where
  name : List Char
  ext : List Char
  decoded : Option Img
  transposed : Option Img
  saveOk : SaveOracle

/-- Classification of one file by a batch loop. -/
inductive FileOutcome where
  | processed
  | skippedFailed
  | skippedUnsupported
deriving DecidableEq, Repr

namespace App

/-- The per-file body of the upload loop in `process_images` of src/app.py
(lines 122-163): files with an empty name are ignored entirely (`none`);
a file whose lower-cased suffix is not in `SUPPORTED_FORMATS` is counted
skipped without ever being decoded; otherwise `process_single_image` runs
(with the defaults `canvas_size=1200, bg_color=None`) and a failure —
any caught exception or a `False` return — is counted skipped. -/
def web_file_outcome (sampler : Sampler) (e : FileEntry) : Option FileOutcome :=
  if e.name = [] then none
  else if e.ext.map Char.toLower ∈ SUPPORTED_FORMATS then
    match process_single_image e.decoded e.transposed e.saveOk sampler 1200 none with
    | ProcOutcome.emitted _ _ => some FileOutcome.processed
    | ProcOutcome.skipped => some FileOutcome.skippedFailed
  else some FileOutcome.skippedUnsupported

/-- The counters accumulated by `process_images` of src/app.py:
`(processed_count, skipped_count)`. -/
def process_images (sampler : Sampler) (files : List FileEntry) : Nat × Nat :=
  files.foldl (fun acc e =>
    match web_file_outcome sampler e with
    | some FileOutcome.processed => (acc.1 + 1, acc.2)
    | some FileOutcome.skippedFailed => (acc.1, acc.2 + 1)
    | some FileOutcome.skippedUnsupported => (acc.1, acc.2 + 1)
    | none => acc) (0, 0)

end App

namespace ImageFormatter

/-- A hexadecimal digit's value, as accepted by Python's `int(s, 16)`. -/
def hexDigitVal (c : Char) : Option Nat :=
  if '0' ≤ c ∧ c ≤ '9' then some (c.toNat - '0'.toNat)
  else if 'a' ≤ c ∧ c ≤ 'f' then some (c.toNat - 'a'.toNat + 10)
  else if 'A' ≤ c ∧ c ≤ 'F' then some (c.toNat - 'A'.toNat + 10)
  else none

/-- Embedding of `int(color_str[i:i+2], 16)` on a two-character slice. -/
def hexByte (c1 c2 : Char) : Option Nat :=
  match hexDigitVal c1, hexDigitVal c2 with
  | some hi, some lo => some (16 * hi + lo)
  | _, _ => none

/-- Python's `str.strip()`: leading and trailing whitespace removed. -/
def pyStrip (cs : List Char) : List Char :=
  ((cs.dropWhile Char.isWhitespace).reverse.dropWhile Char.isWhitespace).reverse

/-- Embedding of `parse_color` of src/image_formatter.py (lines 87-101): `None` passes
through (transparent background); otherwise the string is stripped, one
leading `#` is dropped, a six-character string is read as three hex byte
pairs and a three-character string as three hex digits each scaled by 17
(nibble duplication); every other length — and any non-hex character,
since `int(..., 16)` raises too — is a `ValueError`, embedded as
`Except.error`. -/
def parse_color (color_str : Option (List Char)) :
    Except Unit (Option (Nat × Nat × Nat)) :=
  match color_str with
  | none => Except.ok none
  | some cs0 =>
    let stripped := pyStrip cs0
    let cs :=
      match stripped with
      | '#' :: rest => rest
      | _ => stripped
    match cs with
    | [c1, c2, c3, c4, c5, c6] =>
      match hexByte c1 c2, hexByte c3 c4, hexByte c5 c6 with
      | some r, some g, some b => Except.ok (some (r, g, b))
      | _, _, _ => Except.error ()
    | [c1, c2, c3] =>
      match hexDigitVal c1, hexDigitVal c2, hexDigitVal c3 with
      | some x, some y, some z => Except.ok (some (x * 17, y * 17, z * 17))
      | _, _, _ => Except.error ()
    | _ => Except.error ()

/-- Outcome of a CLI invocation in folder mode. -/
inductive CliOutcome where
  | configError
  | ran (processed : Nat) (skipped : Nat)
deriving DecidableEq, Repr

/-- The folder branch of `main` in src/image_formatter.py (lines 103-157):
the background color is parsed first and a `ValueError` exits the program
before any image is touched; otherwise every directory entry whose
lower-cased suffix is supported is processed (output suffix `.png`) and
counted, and unsupported entries are passed over before any decode. -/
def cli_main_folder (bg : Option (List Char)) (canvas_size : Nat)
    (files : List FileEntry) : CliOutcome :=
  match parse_color bg with
  | Except.error _ => CliOutcome.configError
  | Except.ok bg_color =>
    let counts := files.foldl (fun (acc : Nat × Nat) e =>
      if e.ext.map Char.toLower ∈ SUPPORTED_FORMATS then
        match process_image e.decoded e.transposed e.saveOk pngExt canvas_size bg_color with
        | ProcOutcome.emitted _ _ => (acc.1 + 1, acc.2)
        | ProcOutcome.skipped => (acc.1, acc.2 + 1)
      else acc) (0, 0)
    CliOutcome.ran counts.1 counts.2

end ImageFormatter

section BlendLemmas

theorem muldiv255_zero (x : Nat) : muldiv255 x 0 = 0 := by
  simp [muldiv255]

set_option maxRecDepth 4000 in
theorem muldiv255_mask255 (x : Nat) (hx : x ≤ 255) : muldiv255 x 255 = x := by
  have h : ∀ y < 256, muldiv255 y 255 = y := by decide
  exact h x (by omega)

theorem blendChan_opaque (d s : Nat) (hs : s ≤ 255) : blendChan d s 255 = s := by
  simp [blendChan, muldiv255_zero, muldiv255_mask255 s hs]

theorem center_offset_eq (canvas_size w : Nat) (h : w ≤ canvas_size) :
    center_offset canvas_size w = ((canvas_size - w) / 2 : Nat) := by
  rw [center_offset, Int.fdiv_eq_ediv _ (by norm_num)]
  omega

theorem pasteAt_px_inside (canvas image : Img) (nx ny i j : Nat)
    (hi : i < image.width) (hj : j < image.height) :
    (pasteAt canvas image (nx : Int) (ny : Int)).px (nx + i) (ny + j) =
      (if useAlphaMask image then
         { r := blendChan (canvas.px (nx + i) (ny + j)).r (image.px i j).r (image.px i j).a
           g := blendChan (canvas.px (nx + i) (ny + j)).g (image.px i j).g (image.px i j).a
           b := blendChan (canvas.px (nx + i) (ny + j)).b (image.px i j).b (image.px i j).a
           a := match canvas.mode with
                | Mode.RGBA =>
                    blendChan (canvas.px (nx + i) (ny + j)).a (image.px i j).a (image.px i j).a
                | Mode.RGB => (canvas.px (nx + i) (ny + j)).a }
       else
         { r := (image.px i j).r, g := (image.px i j).g, b := (image.px i j).b,
           a := 255 } : RGBA) := by
  have h1 : ((nx + i : Nat) : Int) - (nx : Int) = (i : Int) := by omega
  have h2 : ((ny + j : Nat) : Int) - (ny : Int) = (j : Int) := by omega
  simp only [pasteAt, h1, h2]
  rw [if_pos ⟨Int.ofNat_nonneg i, by exact_mod_cast hi,
       Int.ofNat_nonneg j, by exact_mod_cast hj⟩]
  simp

theorem pasteAt_px_outside (canvas image : Img) (nx ny cx cy : Nat)
    (h : cx < nx ∨ nx + image.width ≤ cx ∨ cy < ny ∨ ny + image.height ≤ cy) :
    (pasteAt canvas image (nx : Int) (ny : Int)).px cx cy = canvas.px cx cy := by
  simp only [pasteAt]
  rw [if_neg]
  rintro ⟨ha, hb, hc, hd⟩
  omega

end BlendLemmas

theorem mkCanvas_width (canvas_size : Nat) (bg : Option (Nat × Nat × Nat)) :
    (mkCanvas canvas_size bg).width = canvas_size := by
  rcases bg with _ | ⟨r, g, b⟩ <;> rfl

theorem mkCanvas_height (canvas_size : Nat) (bg : Option (Nat × Nat × Nat)) :
    (mkCanvas canvas_size bg).height = canvas_size := by
  rcases bg with _ | ⟨r, g, b⟩ <;> rfl

theorem pasteAt_width (canvas image : Img) (x y : Int) :
    (pasteAt canvas image x y).width = canvas.width := rfl

theorem pasteAt_height (canvas image : Img) (x y : Int) :
    (pasteAt canvas image x y).height = canvas.height := rfl

/-- Under either background, a fully opaque source pixel pasted inside the
canvas region comes through unchanged: with a mask all three color
channels blend with mask value 255 (reproducing the source) and the alpha
result is 255 on both canvas modes; without a mask the pixel is copied
with alpha materialized as 255. -/
theorem pasteAt_px_opaque (bg : Option (Nat × Nat × Nat)) (image : Img)
    (S nx ny i j : Nat) (hi : i < image.width) (hj : j < image.height)
    (ha : (image.px i j).a = 255) (hr : (image.px i j).r ≤ 255)
    (hg : (image.px i j).g ≤ 255) (hb : (image.px i j).b ≤ 255) :
    (pasteAt (mkCanvas S bg) image (nx : Int) (ny : Int)).px (nx + i) (ny + j) =
      image.px i j := by
  rw [pasteAt_px_inside (mkCanvas S bg) image nx ny i j hi hj]
  rcases hpx : image.px i j with ⟨pr, pg, pb, pa⟩
  rw [hpx] at ha hr hg hb
  simp only at ha hr hg hb
  subst ha
  rcases bg with _ | ⟨r0, g0, b0⟩ <;> cases hmask : useAlphaMask image <;>
    simp [mkCanvas, hmask, blendChan_opaque _ _ hr, blendChan_opaque _ _ hg,
      blendChan_opaque _ _ hb,
      blendChan_opaque 0 255 (by omega : (255 : Nat) ≤ 255),
      blendChan_opaque 255 255 (by omega : (255 : Nat) ≤ 255)]

/-- C1: for every source image with width ≤ canvasSize and height ≤
canvasSize, the CLI `center_image_on_canvas` produces a canvas of exactly
canvasSize × canvasSize, pastes the source at offset
`((S - w) // 2, (S - h) // 2)` computed by integer floor division (so the
extra pixel of padding for an odd difference goes to the bottom/right:
the leading pad never exceeds the trailing pad, which exceeds it by at
most one), and the source pixels come through unchanged in content
wherever they are fully opaque, i.e. not background. -/
theorem cli_center_blit (image : Img) (S : Nat) (bg : Option (Nat × Nat × Nat))
    (hw : image.width ≤ S) (hh : image.height ≤ S) :
    ∃ c, ImageFormatter.center_image_on_canvas image S bg = some c ∧
      c.width = S ∧ c.height = S ∧
      center_offset S image.width = ((S - image.width) / 2 : Nat) ∧
      center_offset S image.height = ((S - image.height) / 2 : Nat) ∧
      (S - image.width) / 2 ≤ (S - image.width) - (S - image.width) / 2 ∧
      (S - image.width) - (S - image.width) / 2 ≤ (S - image.width) / 2 + 1 ∧
      (S - image.height) / 2 ≤ (S - image.height) - (S - image.height) / 2 ∧
      (S - image.height) - (S - image.height) / 2 ≤ (S - image.height) / 2 + 1 ∧
      ∀ i j, i < image.width → j < image.height →
        (image.px i j).a = 255 → (image.px i j).r ≤ 255 →
        (image.px i j).g ≤ 255 → (image.px i j).b ≤ 255 →
        c.px ((S - image.width) / 2 + i) ((S - image.height) / 2 + j) = image.px i j := by
  have ex : center_offset S image.width = (((S - image.width) / 2 : Nat) : Int) :=
    center_offset_eq S image.width hw
  have ey : center_offset S image.height = (((S - image.height) / 2 : Nat) : Int) :=
    center_offset_eq S image.height hh
  refine ⟨pasteAt (mkCanvas S bg) image (((S - image.width) / 2 : Nat) : Int)
      (((S - image.height) / 2 : Nat) : Int), ?_, ?_, ?_, ex, ey, ?_, ?_, ?_, ?_, ?_⟩
  · rw [ImageFormatter.center_image_on_canvas, if_neg (by omega), ex, ey]
  · rw [pasteAt_width, mkCanvas_width]
  · rw [pasteAt_height, mkCanvas_height]
  · omega
  · omega
  · omega
  · omega
  · intro i j hi hj ha hr hg hb
    exact pasteAt_px_opaque bg image S _ _ i j hi hj ha hr hg hb

/-- Witness for C1: a 1×1 opaque image centered on a 3×3 transparent
canvas; the offsets are (1, 1) and the pixel comes through unchanged. -/
theorem cli_center_blit_witness :
    ∃ c, ImageFormatter.center_image_on_canvas
        { width := 1, height := 1, mode := Mode.RGB, px := fun _ _ => ⟨10, 20, 30, 255⟩,
          transparency_info := false, exif := none, icc_profile := none } 3 none = some c ∧
      c.width = 3 ∧ c.height = 3 ∧
      center_offset 3 1 = ((3 - 1) / 2 : Nat) ∧
      center_offset 3 1 = ((3 - 1) / 2 : Nat) ∧
      (3 - 1) / 2 ≤ (3 - 1) - (3 - 1) / 2 ∧
      (3 - 1) - (3 - 1) / 2 ≤ (3 - 1) / 2 + 1 ∧
      (3 - 1) / 2 ≤ (3 - 1) - (3 - 1) / 2 ∧
      (3 - 1) - (3 - 1) / 2 ≤ (3 - 1) / 2 + 1 ∧
      ∀ i j, i < 1 → j < 1 →
        ((fun (_ : Nat) (_ : Nat) => (⟨10, 20, 30, 255⟩ : RGBA)) i j).a = 255 →
        ((fun (_ : Nat) (_ : Nat) => (⟨10, 20, 30, 255⟩ : RGBA)) i j).r ≤ 255 →
        ((fun (_ : Nat) (_ : Nat) => (⟨10, 20, 30, 255⟩ : RGBA)) i j).g ≤ 255 →
        ((fun (_ : Nat) (_ : Nat) => (⟨10, 20, 30, 255⟩ : RGBA)) i j).b ≤ 255 →
        c.px ((3 - 1) / 2 + i) ((3 - 1) / 2 + j) = (⟨10, 20, 30, 255⟩ : RGBA) :=
  cli_center_blit
    { width := 1, height := 1, mode := Mode.RGB, px := fun _ _ => ⟨10, 20, 30, 255⟩,
      transparency_info := false, exif := none, icc_profile := none } 3 none
    (by decide) (by decide)

/-- C2: with the non-downscale (CLI) policy, an image that exceeds the
canvas on either axis after orientation normalization makes
`center_image_on_canvas` return the skip value `None` — not an exception —
with no canvas produced, and `process_image` then returns a skip with no
output artifact written. -/
theorem cli_oversize_skip (img0 : Img) (transposed : Option Img)
    (saveOk : SaveOracle) (output_ext : List Char) (S : Nat)
    (bg : Option (Nat × Nat × Nat))
    (hover : S < (apply_exif_orientation transposed img0).width ∨
             S < (apply_exif_orientation transposed img0).height) :
    ImageFormatter.center_image_on_canvas (apply_exif_orientation transposed img0) S bg =
      none ∧
    ImageFormatter.process_image (some img0) transposed saveOk output_ext S bg =
      ProcOutcome.skipped := by
  have hc : ImageFormatter.center_image_on_canvas
      (apply_exif_orientation transposed img0) S bg = none := by
    rw [ImageFormatter.center_image_on_canvas, if_pos hover]
  refine ⟨hc, ?_⟩
  rw [ImageFormatter.process_image]
  rw [hc]

/-- Witness for C2: a 3×1 image with a 2×2 canvas is skipped. -/
theorem cli_oversize_skip_witness :
    ImageFormatter.center_image_on_canvas
      (apply_exif_orientation none
        { width := 3, height := 1, mode := Mode.RGB, px := fun _ _ => ⟨0, 0, 0, 255⟩,
          transparency_info := false, exif := none, icc_profile := none }) 2 none = none ∧
    ImageFormatter.process_image
      (some { width := 3, height := 1, mode := Mode.RGB, px := fun _ _ => ⟨0, 0, 0, 255⟩,
              transparency_info := false, exif := none, icc_profile := none })
      none (fun _ _ => true) pngExt 2 none = ProcOutcome.skipped :=
  cli_oversize_skip
    { width := 3, height := 1, mode := Mode.RGB, px := fun _ _ => ⟨0, 0, 0, 255⟩,
      transparency_info := false, exif := none, icc_profile := none }
    none (fun _ _ => true) pngExt 2 none (by decide)

/-- C5: a failed EXIF orientation step (absent or malformed tag making the
library call raise, embedded as the `none` outcome) does not fail the
pipeline: `apply_exif_orientation` returns the image unchanged, and
`process_image` behaves exactly as it does when the transpose returns the
image unchanged — processing of the image continues. -/
theorem exif_orientation_recoverable (img0 : Img) (saveOk : SaveOracle)
    (output_ext : List Char) (S : Nat) (bg : Option (Nat × Nat × Nat)) :
    apply_exif_orientation none img0 = img0 ∧
    ImageFormatter.process_image (some img0) none saveOk output_ext S bg =
      ImageFormatter.process_image (some img0) (some img0) saveOk output_ext S bg := by
  exact ⟨rfl, rfl⟩

/-- Neither resized dimension exceeds the canvas side: the scale factor is
at most `S/w` and at most `S/h`, so each product is at most `S` and so is
its floor. -/
theorem resizeDims_le (w h S : Nat) (hw : 0 < w) (hh : 0 < h) :
    (App.resizeDims w h S).1 ≤ S ∧ (App.resizeDims w h S).2 ≤ S := by
  have hwq : (0 : ℚ) < (w : ℚ) := by exact_mod_cast hw
  have hhq : (0 : ℚ) < (h : ℚ) := by exact_mod_cast hh
  constructor
  · have h1 : App.scale_factor w h S ≤ (S : ℚ) / (w : ℚ) := min_le_left _ _
    have h2 : (w : ℚ) * App.scale_factor w h S ≤ (S : ℚ) := by
      calc (w : ℚ) * App.scale_factor w h S
          ≤ (w : ℚ) * ((S : ℚ) / (w : ℚ)) := by
            exact mul_le_mul_of_nonneg_left h1 (le_of_lt hwq)
        _ = (S : ℚ) := by field_simp
    have h3 : ⌊(w : ℚ) * App.scale_factor w h S⌋ ≤ (S : Int) := by
      calc ⌊(w : ℚ) * App.scale_factor w h S⌋ ≤ ⌊((S : Nat) : ℚ)⌋ := Int.floor_mono h2
        _ = (S : Int) := Int.floor_natCast S
    simpa [App.resizeDims] using Int.toNat_le.mpr h3
  · have h1 : App.scale_factor w h S ≤ (S : ℚ) / (h : ℚ) := min_le_right _ _
    have h2 : (h : ℚ) * App.scale_factor w h S ≤ (S : ℚ) := by
      calc (h : ℚ) * App.scale_factor w h S
          ≤ (h : ℚ) * ((S : ℚ) / (h : ℚ)) := by
            exact mul_le_mul_of_nonneg_left h1 (le_of_lt hhq)
        _ = (S : ℚ) := by field_simp
    have h3 : ⌊(h : ℚ) * App.scale_factor w h S⌋ ≤ (S : Int) := by
      calc ⌊(h : ℚ) * App.scale_factor w h S⌋ ≤ ⌊((S : Nat) : ℚ)⌋ := Int.floor_mono h2
        _ = (S : Int) := Int.floor_natCast S
    simpa [App.resizeDims] using Int.toNat_le.mpr h3

/-- The image the web variant pastes — the original when it already fits,
the downscaled one otherwise — never exceeds the canvas on either axis. -/
theorem web_fitted_le (sampler : Sampler) (image : Img) (S : Nat)
    (hw : 0 < image.width) (hh : 0 < image.height) :
    (App.web_fitted sampler image S).width ≤ S ∧
    (App.web_fitted sampler image S).height ≤ S := by
  rw [App.web_fitted]
  by_cases hc : S < image.width ∨ S < image.height
  · rw [if_pos hc]
    exact resizeDims_le image.width image.height S hw hh
  · rw [if_neg hc]
    omega

/-- A centering offset for a fitting dimension is nonnegative and leaves
the pasted extent inside the canvas. -/
theorem center_offset_bounds (S w : Nat) (h : w ≤ S) :
    0 ≤ center_offset S w ∧ center_offset S w + (w : Int) ≤ (S : Int) := by
  rw [center_offset_eq S w h]
  omega

/-- C10: whenever a canvas is produced — always, in the downscale (web)
variant with positive source dimensions, and exactly when the image fits,
in the skip (CLI) variant — the paste offsets are nonnegative and the
pasted image lies entirely within the canvas: `0 ≤ x`, `0 ≤ y`,
`x + w ≤ S` and `y + h ≤ S`, the oversized case having been either skipped
or first downscaled to fit. -/
theorem paste_in_bounds :
    (∀ (image : Img) (S : Nat) (bg : Option (Nat × Nat × Nat)) (c : Img),
      ImageFormatter.center_image_on_canvas image S bg = some c →
      0 ≤ center_offset S image.width ∧
      center_offset S image.width + (image.width : Int) ≤ (S : Int) ∧
      0 ≤ center_offset S image.height ∧
      center_offset S image.height + (image.height : Int) ≤ (S : Int)) ∧
    (∀ (sampler : Sampler) (image : Img) (S : Nat),
      0 < image.width → 0 < image.height →
      0 ≤ center_offset S (App.web_fitted sampler image S).width ∧
      center_offset S (App.web_fitted sampler image S).width +
        ((App.web_fitted sampler image S).width : Int) ≤ (S : Int) ∧
      0 ≤ center_offset S (App.web_fitted sampler image S).height ∧
      center_offset S (App.web_fitted sampler image S).height +
        ((App.web_fitted sampler image S).height : Int) ≤ (S : Int)) := by
  constructor
  · intro image S bg c hc
    rw [ImageFormatter.center_image_on_canvas] at hc
    by_cases hover : S < image.width ∨ S < image.height
    · rw [if_pos hover] at hc
      exact absurd hc (by simp)
    · have hw : image.width ≤ S := by omega
      have hh : image.height ≤ S := by omega
      obtain ⟨h1, h2⟩ := center_offset_bounds S image.width hw
      obtain ⟨h3, h4⟩ := center_offset_bounds S image.height hh
      exact ⟨h1, h2, h3, h4⟩
  · intro sampler image S hw hh
    obtain ⟨hfw, hfh⟩ := web_fitted_le sampler image S hw hh
    obtain ⟨h1, h2⟩ := center_offset_bounds S _ hfw
    obtain ⟨h3, h4⟩ := center_offset_bounds S _ hfh
    exact ⟨h1, h2, h3, h4⟩

/-- Witness for C10: the CLI part at a 1×1 image on a 3×3 canvas, the web
part at a 30×10 image on a 12×12 canvas. -/
theorem paste_in_bounds_witness :
    (0 ≤ center_offset 3 1 ∧ center_offset 3 1 + (1 : Int) ≤ (3 : Int) ∧
     0 ≤ center_offset 3 1 ∧ center_offset 3 1 + (1 : Int) ≤ (3 : Int)) ∧
    (0 ≤ center_offset 12
        (App.web_fitted (fun _ _ _ _ _ => ⟨0, 0, 0, 0⟩)
          { width := 30, height := 10, mode := Mode.RGB, px := fun _ _ => ⟨0, 0, 0, 255⟩,
            transparency_info := false, exif := none, icc_profile := none } 12).width ∧
     center_offset 12
        (App.web_fitted (fun _ _ _ _ _ => ⟨0, 0, 0, 0⟩)
          { width := 30, height := 10, mode := Mode.RGB, px := fun _ _ => ⟨0, 0, 0, 255⟩,
            transparency_info := false, exif := none, icc_profile := none } 12).width +
       ((App.web_fitted (fun _ _ _ _ _ => ⟨0, 0, 0, 0⟩)
          { width := 30, height := 10, mode := Mode.RGB, px := fun _ _ => ⟨0, 0, 0, 255⟩,
            transparency_info := false, exif := none, icc_profile := none } 12).width : Int) ≤
       (12 : Int) ∧
     0 ≤ center_offset 12
        (App.web_fitted (fun _ _ _ _ _ => ⟨0, 0, 0, 0⟩)
          { width := 30, height := 10, mode := Mode.RGB, px := fun _ _ => ⟨0, 0, 0, 255⟩,
            transparency_info := false, exif := none, icc_profile := none } 12).height ∧
     center_offset 12
        (App.web_fitted (fun _ _ _ _ _ => ⟨0, 0, 0, 0⟩)
          { width := 30, height := 10, mode := Mode.RGB, px := fun _ _ => ⟨0, 0, 0, 255⟩,
            transparency_info := false, exif := none, icc_profile := none } 12).height +
       ((App.web_fitted (fun _ _ _ _ _ => ⟨0, 0, 0, 0⟩)
          { width := 30, height := 10, mode := Mode.RGB, px := fun _ _ => ⟨0, 0, 0, 255⟩,
            transparency_info := false, exif := none, icc_profile := none } 12).height : Int) ≤
       (12 : Int)) := by
  constructor
  · exact paste_in_bounds.1
      { width := 1, height := 1, mode := Mode.RGB, px := fun _ _ => ⟨0, 0, 0, 255⟩,
        transparency_info := false, exif := none, icc_profile := none } 3 none
      (pasteAt (mkCanvas 3 none)
        { width := 1, height := 1, mode := Mode.RGB, px := fun _ _ => ⟨0, 0, 0, 255⟩,
          transparency_info := false, exif := none, icc_profile := none }
        (center_offset 3 1) (center_offset 3 1))
      (by rw [ImageFormatter.center_image_on_canvas, if_neg (by decide)])
  · exact paste_in_bounds.2 (fun _ _ _ _ _ => ⟨0, 0, 0, 0⟩)
      { width := 30, height := 10, mode := Mode.RGB, px := fun _ _ => ⟨0, 0, 0, 255⟩,
        transparency_info := false, exif := none, icc_profile := none } 12
      (by decide) (by decide)

/-- C3: with the downscale (web) policy, an image strictly exceeding the
canvas side on either axis is resized to
`(int(w * scale), int(h * scale))` for `scale = min(S/w, S/h)` — the
definition of `resizeDims` — and neither new dimension exceeds `S`; in
particular a 2000×1000 input with S = 1200 is resized to 1200×600 and
centered at offset (0, 300). -/
theorem web_downscale_dims (sampler : Sampler) (image : Img) (S : Nat)
    (hw : 0 < image.width) (hh : 0 < image.height)
    (hover : S < image.width ∨ S < image.height) :
    App.web_fitted sampler image S =
      image_resize sampler image
        (App.resizeDims image.width image.height S).1
        (App.resizeDims image.width image.height S).2 ∧
    (App.web_fitted sampler image S).width =
      (App.resizeDims image.width image.height S).1 ∧
    (App.web_fitted sampler image S).height =
      (App.resizeDims image.width image.height S).2 ∧
    (App.web_fitted sampler image S).width ≤ S ∧
    (App.web_fitted sampler image S).height ≤ S ∧
    App.resizeDims 2000 1000 1200 = (1200, 600) ∧
    center_offset 1200 1200 = 0 ∧
    center_offset 1200 600 = 300 := by
  have hfit : App.web_fitted sampler image S =
      image_resize sampler image
        (App.resizeDims image.width image.height S).1
        (App.resizeDims image.width image.height S).2 := by
    rw [App.web_fitted, if_pos hover]
  obtain ⟨hle1, hle2⟩ := web_fitted_le sampler image S hw hh
  have hdims : App.resizeDims 2000 1000 1200 = (1200, 600) := by
    have hs : App.scale_factor 2000 1000 1200 = 3 / 5 := by
      rw [App.scale_factor, min_def]
      norm_num
    rw [App.resizeDims, hs]
    norm_num
    exact ⟨rfl, rfl⟩
  refine ⟨hfit, ?_, ?_, hle1, hle2, hdims, by decide, by decide⟩
  · rw [hfit]
    rfl
  · rw [hfit]
    rfl

/-- Witness for C3: the concrete 2000×1000 image on the default 1200
canvas. -/
theorem web_downscale_dims_witness :
    App.web_fitted (fun _ _ _ _ _ => ⟨0, 0, 0, 0⟩)
      { width := 2000, height := 1000, mode := Mode.RGB, px := fun _ _ => ⟨0, 0, 0, 255⟩,
        transparency_info := false, exif := none, icc_profile := none } 1200 =
      image_resize (fun _ _ _ _ _ => ⟨0, 0, 0, 0⟩)
        { width := 2000, height := 1000, mode := Mode.RGB, px := fun _ _ => ⟨0, 0, 0, 255⟩,
          transparency_info := false, exif := none, icc_profile := none }
        (App.resizeDims 2000 1000 1200).1 (App.resizeDims 2000 1000 1200).2 ∧
    (App.web_fitted (fun _ _ _ _ _ => ⟨0, 0, 0, 0⟩)
      { width := 2000, height := 1000, mode := Mode.RGB, px := fun _ _ => ⟨0, 0, 0, 255⟩,
        transparency_info := false, exif := none, icc_profile := none } 1200).width =
      (App.resizeDims 2000 1000 1200).1 ∧
    (App.web_fitted (fun _ _ _ _ _ => ⟨0, 0, 0, 0⟩)
      { width := 2000, height := 1000, mode := Mode.RGB, px := fun _ _ => ⟨0, 0, 0, 255⟩,
        transparency_info := false, exif := none, icc_profile := none } 1200).height =
      (App.resizeDims 2000 1000 1200).2 ∧
    (App.web_fitted (fun _ _ _ _ _ => ⟨0, 0, 0, 0⟩)
      { width := 2000, height := 1000, mode := Mode.RGB, px := fun _ _ => ⟨0, 0, 0, 255⟩,
        transparency_info := false, exif := none, icc_profile := none } 1200).width ≤ 1200 ∧
    (App.web_fitted (fun _ _ _ _ _ => ⟨0, 0, 0, 0⟩)
      { width := 2000, height := 1000, mode := Mode.RGB, px := fun _ _ => ⟨0, 0, 0, 255⟩,
        transparency_info := false, exif := none, icc_profile := none } 1200).height ≤ 1200 ∧
    App.resizeDims 2000 1000 1200 = (1200, 600) ∧
    center_offset 1200 1200 = 0 ∧
    center_offset 1200 600 = 300 :=
  web_downscale_dims (fun _ _ _ _ _ => ⟨0, 0, 0, 0⟩)
    { width := 2000, height := 1000, mode := Mode.RGB, px := fun _ _ => ⟨0, 0, 0, 255⟩,
      transparency_info := false, exif := none, icc_profile := none } 1200
    (by decide) (by decide) (by decide)

/-- C4: the color parser maps "#ffffff" to (255,255,255), "#fff" to
(255,255,255), and "abc" (three characters, no hash) to (170,187,204) by
nibble duplication; an input like "12" raises the invalid-color error; and
any parse error is a configuration-time failure: the CLI run exits before
any image is processed (fail-fast, not per-image). -/
theorem parse_color_spec :
    ImageFormatter.parse_color (some ("#ffffff".toList)) = Except.ok (some (255, 255, 255)) ∧
    ImageFormatter.parse_color (some ("#fff".toList)) = Except.ok (some (255, 255, 255)) ∧
    ImageFormatter.parse_color (some ("abc".toList)) = Except.ok (some (170, 187, 204)) ∧
    ImageFormatter.parse_color (some ("12".toList)) = Except.error () ∧
    (∀ (bg : Option (List Char)) (S : Nat) (files : List FileEntry),
      ImageFormatter.parse_color bg = Except.error () →
      ImageFormatter.cli_main_folder bg S files = ImageFormatter.CliOutcome.configError) := by
  refine ⟨rfl, rfl, rfl, rfl, ?_⟩
  intro bg S files herr
  rw [ImageFormatter.cli_main_folder, herr]

/-- Witness for C4: the "12" configuration aborts a run over an arbitrary
file list before processing. -/
theorem parse_color_spec_witness :
    ImageFormatter.cli_main_folder (some ("12".toList)) 1200 [] =
      ImageFormatter.CliOutcome.configError :=
  parse_color_spec.2.2.2.2 (some ("12".toList)) 1200 [] rfl

/-- C7: a non-empty upload whose lower-cased extension is not among
jpg/jpeg/png/tiff/tif/bmp/webp is classified as an unsupported-format skip
by the web batch loop regardless of the decode, orientation and save
oracles — decoding is never attempted and no exception crosses the
per-image boundary (the outcome is a total value, not an exception). -/
theorem unsupported_ext_skip (e : FileEntry) (hname : e.name ≠ [])
    (hext : e.ext.map Char.toLower ∉ SUPPORTED_FORMATS) :
    ∀ (sampler : Sampler) (d t : Option Img) (s : SaveOracle),
      App.web_file_outcome sampler
        { e with decoded := d, transposed := t, saveOk := s } =
        some FileOutcome.skippedUnsupported := by
  intro sampler d t s
  rw [App.web_file_outcome]
  rw [if_neg (by simpa using hname), if_neg (by simpa using hext)]

/-- Witness for C7: a `.gif` upload is an unsupported-format skip whatever
the oracles would have answered. -/
theorem unsupported_ext_skip_witness :
    App.web_file_outcome (fun _ _ _ _ _ => ⟨0, 0, 0, 0⟩)
      { name := "a.gif".toList, ext := ".gif".toList, decoded := none,
        transposed := none, saveOk := fun _ _ => false } =
      some FileOutcome.skippedUnsupported :=
  unsupported_ext_skip
    { name := "a.gif".toList, ext := ".gif".toList, decoded := none,
      transposed := none, saveOk := fun _ _ => false }
    (by decide) (by decide) (fun _ _ _ _ _ => ⟨0, 0, 0, 0⟩) none none (fun _ _ => false)

theorem pasteAt_mode (canvas image : Img) (x y : Int) :
    (pasteAt canvas image x y).mode = canvas.mode := rfl

/-- C8: with background "transparent" (`bg_color is None`) the canvas is an
alpha-capable (RGBA) buffer initialized fully transparent — alpha 0
everywhere, as every pixel outside the pasted region still shows — and the
source is composited onto it at the centered offset using the source's own
alpha channel as mask exactly when the source has one (mode RGBA or a
transparency entry); a source without an alpha channel is pasted opaquely,
its pixels copied with alpha materialized as 255. -/
theorem transparent_canvas_composite (image : Img) (S : Nat)
    (hw : image.width ≤ S) (hh : image.height ≤ S) :
    (∀ cx cy : Nat, (mkCanvas S none).px cx cy = ⟨0, 0, 0, 0⟩) ∧
    (mkCanvas S none).mode = Mode.RGBA ∧
    ∃ c, ImageFormatter.center_image_on_canvas image S none = some c ∧
      c.mode = Mode.RGBA ∧ c.width = S ∧ c.height = S ∧
      (∀ cx cy,
        (cx < (S - image.width) / 2 ∨ (S - image.width) / 2 + image.width ≤ cx ∨
         cy < (S - image.height) / 2 ∨ (S - image.height) / 2 + image.height ≤ cy) →
        c.px cx cy = ⟨0, 0, 0, 0⟩) ∧
      (useAlphaMask image = true →
        ∀ i j, i < image.width → j < image.height →
          c.px ((S - image.width) / 2 + i) ((S - image.height) / 2 + j) =
            ⟨blendChan 0 (image.px i j).r (image.px i j).a,
             blendChan 0 (image.px i j).g (image.px i j).a,
             blendChan 0 (image.px i j).b (image.px i j).a,
             blendChan 0 (image.px i j).a (image.px i j).a⟩) ∧
      (useAlphaMask image = false →
        ∀ i j, i < image.width → j < image.height →
          c.px ((S - image.width) / 2 + i) ((S - image.height) / 2 + j) =
            ⟨(image.px i j).r, (image.px i j).g, (image.px i j).b, 255⟩) := by
  have ex : center_offset S image.width = (((S - image.width) / 2 : Nat) : Int) :=
    center_offset_eq S image.width hw
  have ey : center_offset S image.height = (((S - image.height) / 2 : Nat) : Int) :=
    center_offset_eq S image.height hh
  refine ⟨fun _ _ => rfl, rfl,
    pasteAt (mkCanvas S none) image (((S - image.width) / 2 : Nat) : Int)
      (((S - image.height) / 2 : Nat) : Int), ?_, rfl, ?_, ?_, ?_, ?_, ?_⟩
  · rw [ImageFormatter.center_image_on_canvas, if_neg (by omega), ex, ey]
  · rw [pasteAt_width, mkCanvas_width]
  · rw [pasteAt_height, mkCanvas_height]
  · intro cx cy hout
    rw [pasteAt_px_outside _ _ _ _ _ _ hout]
    rfl
  · intro hmask i j hi hj
    rw [pasteAt_px_inside _ _ _ _ i j hi hj]
    simp [hmask, mkCanvas]
  · intro hmask i j hi hj
    rw [pasteAt_px_inside _ _ _ _ i j hi hj]
    simp [hmask, mkCanvas]

/-- Concrete translucent RGBA test image for the C8 witness. -/
def imgW8 : Img :=
  { width := 1, height := 1, mode := Mode.RGBA, px := fun _ _ => ⟨200, 100, 50, 128⟩,
    transparency_info := false, exif := none, icc_profile := none }

/-- Witness for C8: a translucent 1×1 RGBA image on a 2×2 transparent
canvas. -/
theorem transparent_canvas_composite_witness :
    (∀ cx cy : Nat, (mkCanvas 2 none).px cx cy = ⟨0, 0, 0, 0⟩) ∧
    (mkCanvas 2 none).mode = Mode.RGBA ∧
    ∃ c, ImageFormatter.center_image_on_canvas imgW8 2 none = some c ∧
      c.mode = Mode.RGBA ∧ c.width = 2 ∧ c.height = 2 ∧
      (∀ cx cy,
        (cx < (2 - imgW8.width) / 2 ∨ (2 - imgW8.width) / 2 + imgW8.width ≤ cx ∨
         cy < (2 - imgW8.height) / 2 ∨ (2 - imgW8.height) / 2 + imgW8.height ≤ cy) →
        c.px cx cy = ⟨0, 0, 0, 0⟩) ∧
      (useAlphaMask imgW8 = true →
        ∀ i j, i < imgW8.width → j < imgW8.height →
          c.px ((2 - imgW8.width) / 2 + i) ((2 - imgW8.height) / 2 + j) =
            ⟨blendChan 0 (imgW8.px i j).r (imgW8.px i j).a,
             blendChan 0 (imgW8.px i j).g (imgW8.px i j).a,
             blendChan 0 (imgW8.px i j).b (imgW8.px i j).a,
             blendChan 0 (imgW8.px i j).a (imgW8.px i j).a⟩) ∧
      (useAlphaMask imgW8 = false →
        ∀ i j, i < imgW8.width → j < imgW8.height →
          c.px ((2 - imgW8.width) / 2 + i) ((2 - imgW8.height) / 2 + j) =
            ⟨(imgW8.px i j).r, (imgW8.px i j).g, (imgW8.px i j).b, 255⟩) :=
  transparent_canvas_composite imgW8 2 (by decide) (by decide)

/-- Concrete translucent 1×1 image, already exactly canvas-sized for a
canvas of side 1. -/
def imgC9 : Img :=
  { width := 1, height := 1, mode := Mode.RGBA, px := fun _ _ => ⟨255, 255, 255, 128⟩,
    transparency_info := false, exif := none, icc_profile := none }

/-- Sampler oracle for the C9 statements (never consulted: the image is
not oversized, so no resize happens). -/
def samplerC9 : Sampler :=
  fun _ _ _ _ _ => ⟨0, 0, 0, 0⟩

/-- C9 fails as stated: a canvas-sized translucent RGBA image is pasted
with itself as mask, and blending against the fully transparent canvas
changes the pixel — (255,255,255,128) becomes (128,128,128,64) — so the
output is not identical to the input even though no scaling occurs. -/
theorem web_idempotence_counterexample :
    imgC9.width = 1 ∧ imgC9.height = 1 ∧
    (App.center_image_on_canvas samplerC9 imgC9 1 none).px 0 0 ≠ imgC9.px 0 0 := by
  refine ⟨rfl, rfl, ?_⟩
  decide

/-- C9 (amended): for an image of exactly canvasSize × canvasSize whose
pixels are all fully opaque (alpha 255, as for any source without an alpha
channel), the downscale-policy composition triggers no scaling, uses
offset (0, 0), and yields an output of the same dimensions whose pixel
content is identical to the input; for a translucent source the composite
against the transparent background alters pixel values (see the
counterexample), so identity holds only on the fully opaque pixels. -/
theorem web_idempotent_opaque (sampler : Sampler) (image : Img) (S : Nat)
    (hW : image.width = S) (hH : image.height = S)
    (hopx : ∀ x y, x < S → y < S →
      (image.px x y).a = 255 ∧ (image.px x y).r ≤ 255 ∧
      (image.px x y).g ≤ 255 ∧ (image.px x y).b ≤ 255) :
    App.web_fitted sampler image S = image ∧
    center_offset S image.width = 0 ∧
    center_offset S image.height = 0 ∧
    (App.center_image_on_canvas sampler image S none).width = S ∧
    (App.center_image_on_canvas sampler image S none).height = S ∧
    ∀ x y, x < S → y < S →
      (App.center_image_on_canvas sampler image S none).px x y = image.px x y := by
  have hfit : App.web_fitted sampler image S = image := by
    rw [App.web_fitted, if_neg (by omega)]
  have hzero : ∀ w, w = S → center_offset S w = (((0 : Nat)) : Int) := by
    intro w hws
    rw [hws, center_offset_eq S S (le_refl S)]
    simp
  have hcenter : App.center_image_on_canvas sampler image S none =
      pasteAt (mkCanvas S none) image (((0 : Nat)) : Int) (((0 : Nat)) : Int) := by
    rw [App.center_image_on_canvas]
    rw [hfit, hzero image.width hW, hzero image.height hH]
  refine ⟨hfit, ?_, ?_, ?_, ?_, ?_⟩
  · rw [hzero image.width hW]
    rfl
  · rw [hzero image.height hH]
    rfl
  · rw [hcenter, pasteAt_width, mkCanvas_width]
  · rw [hcenter, pasteAt_height, mkCanvas_height]
  · intro x y hx hy
    obtain ⟨ha, hr, hg, hb⟩ := hopx x y hx hy
    have := pasteAt_px_opaque none image S 0 0 x y (by omega) (by omega) ha hr hg hb
    rw [hcenter]
    simpa using this

/-- Witness for C9 (amended): an opaque canvas-sized 1×1 image passes
through the web composition unchanged. -/
def imgW9 : Img :=
  { width := 1, height := 1, mode := Mode.RGB, px := fun _ _ => ⟨9, 8, 7, 255⟩,
    transparency_info := false, exif := none, icc_profile := none }

theorem web_idempotent_opaque_witness :
    App.web_fitted samplerC9 imgW9 1 = imgW9 ∧
    center_offset 1 imgW9.width = 0 ∧
    center_offset 1 imgW9.height = 0 ∧
    (App.center_image_on_canvas samplerC9 imgW9 1 none).width = 1 ∧
    (App.center_image_on_canvas samplerC9 imgW9 1 none).height = 1 ∧
    ∀ x y, x < 1 → y < 1 →
      (App.center_image_on_canvas samplerC9 imgW9 1 none).px x y = imgW9.px x y :=
  web_idempotent_opaque samplerC9 imgW9 1 (by decide) (by decide)
    (fun x y _ _ => by constructor <;> simp [imgW9])

theorem save_kwargs_for_exif (ext : List Char) (e i : Option (List Nat))
    (he : truthyBlob e = true) :
    (ImageFormatter.save_kwargs_for ext e i).exif = e := by
  rw [ImageFormatter.save_kwargs_for]
  simp only [he]
  split <;> rfl

theorem save_kwargs_for_icc (ext : List Char) (e i : Option (List Nat))
    (hi : truthyBlob i = true) :
    (ImageFormatter.save_kwargs_for ext e i).icc_profile = i := by
  rw [ImageFormatter.save_kwargs_for]
  simp [hi]

/-- Concrete 1×1 source carrying both an EXIF blob and an ICC profile
blob, for the C6 statements. -/
def imgC6 : Img :=
  { width := 1, height := 1, mode := Mode.RGB, px := fun _ _ => ⟨5, 6, 7, 255⟩,
    transparency_info := false, exif := some [1, 2], icc_profile := some [3] }

/-- Sampler oracle for the C6 statements (never consulted). -/
def samplerC6 : Sampler :=
  fun _ _ _ _ _ => ⟨0, 0, 0, 0⟩

/-- C6 fails as stated.  First conjunct pair: the source carries both
blobs.  Next: the web variant emits its output with *no* metadata attached
(`save(output_path, 'PNG')`), so the blobs are not re-attached.  Last: in
the CLI variant a save failure caused by the attached metadata (the oracle
accepts exactly the metadata-free calls) is caught and yields a skip with
no output artifact — the code never retries without metadata, so no output
is emitted at all, contradicting "the output is still emitted, merely
without that metadata". -/
theorem metadata_carry_counterexample :
    imgC6.exif = some [1, 2] ∧ imgC6.icc_profile = some [3] ∧
    App.process_single_image (some imgC6) (some imgC6) (fun _ _ => true)
        samplerC6 4 none =
      ProcOutcome.emitted (App.center_image_on_canvas samplerC6 imgC6 4 none)
        ⟨SaveFormat.png, none, none⟩ ∧
    ImageFormatter.process_image (some imgC6) (some imgC6)
        (fun _ k => decide (k.exif = none)) pngExt 4 none =
      ProcOutcome.skipped :=
  ⟨rfl, rfl, rfl, rfl⟩

/-- C6 (amended): in the CLI variant, a truthy EXIF blob and a truthy ICC
profile blob of the orientation-normalized source are attached verbatim to
the save arguments of every emitted output; the web variant always emits
with the bare PNG arguments, carrying no metadata; and when the save call
fails — for any reason, including the attached metadata — the failure is
caught and the image is skipped with no output artifact rather than
emitted without metadata. -/
theorem metadata_carry_amended :
    (∀ (img0 : Img) (transposed : Option Img) (saveOk : SaveOracle)
       (output_ext : List Char) (S : Nat) (bg : Option (Nat × Nat × Nat))
       (result : Img) (kwargs : SaveKwargs),
      ImageFormatter.process_image (some img0) transposed saveOk output_ext S bg =
        ProcOutcome.emitted result kwargs →
      truthyBlob (apply_exif_orientation transposed img0).exif = true →
      kwargs.exif = (apply_exif_orientation transposed img0).exif) ∧
    (∀ (img0 : Img) (transposed : Option Img) (saveOk : SaveOracle)
       (output_ext : List Char) (S : Nat) (bg : Option (Nat × Nat × Nat))
       (result : Img) (kwargs : SaveKwargs),
      ImageFormatter.process_image (some img0) transposed saveOk output_ext S bg =
        ProcOutcome.emitted result kwargs →
      truthyBlob (apply_exif_orientation transposed img0).icc_profile = true →
      kwargs.icc_profile = (apply_exif_orientation transposed img0).icc_profile) ∧
    (∀ (decoded transposed : Option Img) (saveOk : SaveOracle) (sampler : Sampler)
       (S : Nat) (bg : Option (Nat × Nat × Nat)) (result : Img) (kwargs : SaveKwargs),
      App.process_single_image decoded transposed saveOk sampler S bg =
        ProcOutcome.emitted result kwargs →
      kwargs = ⟨SaveFormat.png, none, none⟩) ∧
    (∀ (img0 : Img) (transposed : Option Img) (saveOk : SaveOracle)
       (output_ext : List Char) (S : Nat) (bg : Option (Nat × Nat × Nat)),
      (∀ r k, saveOk r k = false) →
      ImageFormatter.process_image (some img0) transposed saveOk output_ext S bg =
        ProcOutcome.skipped) := by
  refine ⟨?_, ?_, ?_, ?_⟩
  · intro img0 transposed saveOk output_ext S bg result kwargs h htr
    simp only [ImageFormatter.process_image] at h
    cases hc : ImageFormatter.center_image_on_canvas
        (apply_exif_orientation transposed img0) S bg with
    | none =>
      rw [hc] at h
      exact absurd h (by simp)
    | some res =>
      rw [hc] at h
      simp only at h
      split at h
      · injection h with h1 h2
        rw [← h2]
        exact save_kwargs_for_exif _ _ _ htr
      · exact absurd h (by simp)
  · intro img0 transposed saveOk output_ext S bg result kwargs h htr
    simp only [ImageFormatter.process_image] at h
    cases hc : ImageFormatter.center_image_on_canvas
        (apply_exif_orientation transposed img0) S bg with
    | none =>
      rw [hc] at h
      exact absurd h (by simp)
    | some res =>
      rw [hc] at h
      simp only at h
      split at h
      · injection h with h1 h2
        rw [← h2]
        exact save_kwargs_for_icc _ _ _ htr
      · exact absurd h (by simp)
  · intro decoded transposed saveOk sampler S bg result kwargs h
    cases decoded with
    | none =>
      simp only [App.process_single_image] at h
      exact absurd h (by simp)
    | some img0 =>
      simp only [App.process_single_image] at h
      split at h
      · injection h with h1 h2
        exact h2.symm
      · exact absurd h (by simp)
  · intro img0 transposed saveOk output_ext S bg hfail
    simp only [ImageFormatter.process_image]
    cases hc : ImageFormatter.center_image_on_canvas
        (apply_exif_orientation transposed img0) S bg with
    | none => rfl
    | some res => simp [hfail]

/-- The canvas the CLI variant emits for `imgC6` on a 4×4 transparent
canvas, written out for the C6 witness. -/
def resultC6 : Img :=
  pasteAt (mkCanvas 4 none) imgC6 (center_offset 4 imgC6.width)
    (center_offset 4 imgC6.height)

/-- Witness for C6 (amended): the CLI attaches `imgC6`'s EXIF blob
verbatim on a successful save, and an always-failing save yields a skip. -/
theorem metadata_carry_amended_witness :
    (ImageFormatter.save_kwargs_for pngExt imgC6.exif imgC6.icc_profile).exif =
      (apply_exif_orientation (some imgC6) imgC6).exif ∧
    ImageFormatter.process_image (some imgC6) none (fun _ _ => false) pngExt 4 none =
      ProcOutcome.skipped :=
  ⟨metadata_carry_amended.1 imgC6 (some imgC6) (fun _ _ => true) pngExt 4 none
      resultC6 (ImageFormatter.save_kwargs_for pngExt imgC6.exif imgC6.icc_profile)
      rfl rfl,
   metadata_carry_amended.2.2.2 imgC6 none (fun _ _ => false) pngExt 4 none
      (fun _ _ => rfl)⟩
